import Mathlib

/-!
Verification of the feed-playback / detection-event core of the
vision-scroll-select-stream repository, embedded shallowly in Lean.

The embedding follows the TypeScript sources:
* `VideoFeed` (locator classification effect, play-promise catches,
  `getErrorMessage`, `handleVideoError`, `retryLoading`, load effect),
* `Terminal` (fetch override / request-intercept adapter, WebSocket
  adapter effect with its handlers, cleanup and `handleConnectToggle`),
* `Index` (`toggleFeed` over the active-feed list).

Host primitives (`JSON.parse`, the browser event loop, the media sink)
are modelled explicitly: `JSON.parse` is an abstract parameter
`parse : String → Option Json`, strings are ASCII-lowered character
lists, and adapter side effects (dispatched detection events, toasts,
console error logs) are reified as an `Emit` list.
-/

namespace VSSS

/-! ### Characters and strings -/

/-- ASCII digit test, via the character code (JS `[0-9]`). -/
def isDigitC (c : Char) : Bool := 48 ≤ c.toNat && c.toNat ≤ 57

/-- ASCII lower-casing of one character, the ASCII fragment of
JS `String.prototype.toLowerCase`. -/
def lowerChar (c : Char) : Char :=
  if 65 ≤ c.toNat ∧ c.toNat ≤ 90 then Char.ofNat (c.toNat + 32) else c

/-- Lower-case a character list (JS `url.toLowerCase()`). -/
def toLowerL (cs : List Char) : List Char := cs.map lowerChar

/-- Substring containment (JS `String.prototype.includes`). -/
def containsL (s pat : List Char) : Bool :=
  pat.isPrefixOf s ||
    (match s with
     | [] => false
     | _ :: rest => containsL rest pat)

/-! ### The IP-camera regular expression

`VideoFeed` tests the lowered locator against
`/\b(?:[0-9]{1,3}\.){3}[0-9]{1,3}(?::[0-9]+)?(?:\/[\w\/\.\_\-\~\:\?\#\[\]\@\!\$\&\'\(\)\*\+\,\;\=]*)?$/`.
The matcher below is a complete backtracking model of that pattern:
each combinator returns `true` exactly when some decomposition of the
input matches the corresponding regex fragment. -/

/-- JS `\w` word character: `[A-Za-z0-9_]`. -/
def isWordC (c : Char) : Bool := c.isAlphanum || c == '_'

/-- Character class of the optional path tail of the regex. -/
def pathChar (c : Char) : Bool :=
  isWordC c || c == '/' || c == '.' || c == '-' || c == '~' || c == ':' ||
  c == '?' || c == '#' || c == '[' || c == ']' || c == '@' || c == '!' ||
  c == '$' || c == '&' || c == Char.ofNat 39 || c == '(' || c == ')' ||
  c == '*' || c == '+' || c == ',' || c == ';' || c == '='

def allPathChars : List Char → Bool
  | [] => true
  | c :: rest => pathChar c && allPathChars rest

/-- Matcher for `(?:\/[class]*)?$`: either nothing remains, or a slash
followed only by path-class characters. -/
def matchPath : List Char → Bool := fun cs =>
  match cs with
  | [] => true
  | c :: rest => c == '/' && allPathChars rest

/-- Matcher for `[0-9]+` followed by `(?:\/[class]*)?$`, trying every
split (regex backtracking). -/
def matchDigitsPlus : List Char → Bool
  | [] => false
  | c :: rest => isDigitC c && (matchPath rest || matchDigitsPlus rest)

/-- Matcher for `(?::[0-9]+)?(?:\/[class]*)?$`. -/
def matchPortPath : List Char → Bool := fun cs =>
  matchPath cs ||
    (match cs with
     | c :: rest => c == ':' && matchDigitsPlus rest
     | [] => false)

/-- Matcher for `[0-9]{1,3}` followed by continuation `k`, trying one,
two or three digits (regex backtracking). -/
def matchOct (k : List Char → Bool) : List Char → Bool := fun cs =>
  match cs with
  | [] => false
  | c1 :: r1 =>
    isDigitC c1 &&
      (k r1 ||
        match r1 with
        | [] => false
        | c2 :: r2 =>
          isDigitC c2 &&
            (k r2 ||
              match r2 with
              | [] => false
              | c3 :: r3 => isDigitC c3 && k r3))

/-- Matcher for a literal dot followed by continuation `k`. -/
def matchDot (k : List Char → Bool) : List Char → Bool := fun cs =>
  match cs with
  | c :: rest => c == '.' && k rest
  | [] => false

/-- Matcher for the whole anchored tail
`(?:[0-9]{1,3}\.){3}[0-9]{1,3}(?::[0-9]+)?(?:\/[class]*)?$`. -/
def matchIPTail : List Char → Bool :=
  matchOct (matchDot (matchOct (matchDot (matchOct (matchDot (matchOct matchPortPath))))))

/-- The `\b` condition before the first (digit, hence word) character of
the pattern: start of string or a non-word character before it. -/
def nonWordBefore : Option Char → Bool
  | none => true
  | some c => !(isWordC c)

/-- Search for a match of the pattern at any start position
(JS `RegExp.prototype.test`). -/
def ipSearchAux (prev : Option Char) : List Char → Bool
  | [] => nonWordBefore prev && matchIPTail []
  | c :: rest =>
    (nonWordBefore prev && matchIPTail (c :: rest)) || ipSearchAux (some c) rest

/-- `regex.test(url)` for the IP-camera pattern. -/
def ipMatch (cs : List Char) : Bool := ipSearchAux none cs

/-! ### The locator classifier (`VideoFeed` classification effect) -/

inductive SourceKind where
  | StaticImage
  | FileVideo
  | LiveStream
deriving DecidableEq, Repr

/-- Recognized video file extensions, in source order. -/
def videoExts : List String := [".mp4", ".webm", ".mov", ".avi", ".mkv"]

/-- `isVideoFile` of the classification effect: the lowered locator ends
with a recognized extension. -/
def isVideoFileL (u : List Char) : Bool :=
  videoExts.any (fun e => List.isSuffixOf e.data u)

/-- `isStream` of the classification effect: streaming-protocol or
HTTP(S) substring, stream-suggesting substring, or the IP pattern. -/
def isStreamL (u : List Char) : Bool :=
  containsL u "rtsp://".data || containsL u "rtmp://".data ||
  containsL u "http://".data || containsL u "https://".data ||
  containsL u "stream".data || containsL u "video_feed".data ||
  ipMatch u

/-- `classify`: the derived `SourceKind` of a feed locator.  The effect
computes `isVideoFeed = isVideoFile || isStream` and
`isLiveStream = isStream && !isVideoFile`; first match wins, so a
video-file locator is `FileVideo`, a stream-only locator is
`LiveStream`, anything else is `StaticImage`. -/
def classify (s : String) : SourceKind :=
  let u := toLowerL s.data
  if isVideoFileL u then SourceKind.FileVideo
  else if isStreamL u then SourceKind.LiveStream
  else SourceKind.StaticImage

/-- An octet field of the literal IP pattern: one to three ASCII digits. -/
def isOctetL (o : List Char) : Bool :=
  decide (o ≠ []) && decide (o.length ≤ 3) && o.all isDigitC

/-- A bare IPv4 string with optional port: four dot-separated octets,
optionally followed by a colon and a non-empty digit run. -/
def IsBareIPv4 (s : String) : Prop :=
  ∃ o1 o2 o3 o4 tail : List Char,
    isOctetL o1 = true ∧ isOctetL o2 = true ∧ isOctetL o3 = true ∧
    isOctetL o4 = true ∧
    (tail = [] ∨ ∃ p : List Char, p ≠ [] ∧ p.all isDigitC = true ∧ tail = ':' :: p) ∧
    s.data = o1 ++ '.' :: (o2 ++ '.' :: (o3 ++ '.' :: (o4 ++ tail)))

/-! ### JSON values and emitted effects

`JSON.parse` is a host primitive; adapters depend only on whether it
succeeds and on the parsed value, so it is passed as an abstract
`parse : String → Option Json`.  Adapter side effects — dispatching a
`detectionEvent` on the document, showing a toast, writing
`console.error` — are reified as `Emit` values in emission order. -/

inductive Json where
  | null
  | bool (b : Bool)
  | num (n : Int)
  | str (s : String)
  | arr (elems : List Json)
  | obj (fields : List (String × Json))

/-- JS property access `data.k` on a parsed value: `some` field value on
an object with the key, otherwise `undefined` (here `none`). -/
def getField (j : Json) (k : String) : Option Json :=
  match j with
  | Json.obj fields => fields.lookup k
  | _ => none

/-- JS truthiness of a defined value. -/
def jsTruthy : Json → Bool
  | Json.null => false
  | Json.bool b => b
  | Json.num n => n != 0
  | Json.str s => s != ""
  | Json.arr _ => true
  | Json.obj _ => true

/-- JS `v || dflt` where `v` is a possibly-undefined property. -/
def jsOr (v : Option Json) (dflt : Json) : Json :=
  match v with
  | some j => if jsTruthy j then j else dflt
  | none => dflt

/-- JS string coercion of a value, as used in template literals. -/
def jsToString : Json → String
  | Json.null => "null"
  | Json.bool true => "true"
  | Json.bool false => "false"
  | Json.num n => toString n
  | Json.str s => s
  | Json.arr xs => String.intercalate "," (xs.attach.map (fun x => jsToString x.1))
  | Json.obj _ => "[object Object]"
decreasing_by
  have h := List.sizeOf_lt_of_mem x.2
  simp only [Json.arr.sizeOf_spec]
  omega

/-- A reified adapter side effect. -/
inductive Emit where
  | detection (data : Json)
  | toast (title description : String)
  | errorLog (msg : String)

/-- The detection events among a list of emissions. -/
def detectionsOf (es : List Emit) : List Json :=
  es.filterMap (fun e => match e with
    | Emit.detection d => some d
    | _ => none)

/-- The toast description template shared by both adapters:
`Feed ID: ${data.feedId || 'Unknown'} - ${data.timestamp || now}` where
`now` is `new Date().toLocaleTimeString()` at receipt. -/
def toastDescription (data : Json) (now : String) : String :=
  "Feed ID: " ++ jsToString (jsOr (getField data "feedId") (Json.str "Unknown"))
    ++ " - " ++ jsToString (jsOr (getField data "timestamp") (Json.str now))

/-! ### URL pathname and the request-intercept adapter (`Terminal` fetch override) -/

/-- Drop everything through the first `://` of an absolute URL. -/
def afterSchemeSep : List Char → Option (List Char)
  | [] => none
  | ':' :: '/' :: '/' :: rest => some rest
  | _ :: rest => afterSchemeSep rest

/-- Collect path characters up to a query or fragment delimiter. -/
def collectUntilQH : List Char → List Char
  | [] => []
  | c :: rest => if c == '?' || c == '#' then [] else c :: collectUntilQH rest

/-- Skip the host portion, then collect the path. -/
def takePathname : List Char → List Char
  | [] => []
  | c :: rest =>
    if c == '/' then collectUntilQH (c :: rest)
    else if c == '?' || c == '#' then []
    else takePathname rest

/-- Model of `new URL(u).pathname` for well-formed absolute URLs:
the part from the first slash after the host up to `?` or `#`, or `/`
when the URL has no path. -/
def pathnameOf (u : String) : String :=
  match afterSchemeSep u.data with
  | some rest =>
    String.mk (if takePathname rest = [] then ['/'] else takePathname rest)
  | none => u

/-- JS `url.startsWith('http')`. -/
def startsWithHttp (u : String) : Bool := List.isPrefixOf "http".data u.data

/-- The URL the override hands to `new URL`: absolute URLs as-is,
relative ones resolved against `window.location.origin`. -/
def resolvedUrl (origin u : String) : String :=
  if startsWithHttp u then u else origin ++ u

/-- The body taken from `init.body`: a string, or anything else
(`FormData`, `Blob`, `undefined`, ...). -/
inductive BodyVal where
  | str (s : String)
  | nonString

/-- Result of one call through the overridden `window.fetch`: either the
adapter synthesized a response itself, or the request was forwarded to
the saved original fetch; both record the effects emitted on the way. -/
inductive FetchResult where
  | synthesized (status : Nat) (respBody : String) (emits : List Emit)
  | passthrough (emits : List Emit)

/-- The effects emitted while handling one overridden fetch call. -/
def emitsOf : FetchResult → List Emit
  | FetchResult.synthesized _ _ es => es
  | FetchResult.passthrough es => es

/-- Whether the adapter answered the call with a synthesized response
(true) or forwarded it to the original network layer (false). -/
def isSynthesized : FetchResult → Bool
  | FetchResult.synthesized _ _ _ => true
  | FetchResult.passthrough _ => false

/-- The overridden `window.fetch` of `Terminal`: requests whose resolved
pathname equals the configured endpoint's pathname and whose method is
POST are processed; a string body that parses as JSON dispatches one
detection event plus a toast and returns a synthesized 200 response;
a failing parse or non-string body logs an error and falls through to
the original fetch, as does every non-matching request. -/
def fetchOverride (apiEndpoint origin : String) (parse : String → Option Json)
    (now : String) (url method : String) (body : BodyVal) : FetchResult :=
  if pathnameOf (resolvedUrl origin url) = pathnameOf (origin ++ apiEndpoint)
      ∧ method = "POST" then
    match body with
    | BodyVal.str s =>
      match parse s with
      | some data =>
        FetchResult.synthesized 200 "\x7B\x22success\x22:true\x7D"
          [Emit.detection data,
           Emit.toast (jsToString (jsOr (getField data "event") (Json.str "Detection event")))
             (toastDescription data now)]
      | none => FetchResult.passthrough [Emit.errorLog "Error processing detection data"]
    | BodyVal.nonString => FetchResult.passthrough [Emit.errorLog "Request body is not a string"]
  else FetchResult.passthrough []

/-! ### The socket adapter's message handler (`ws.onmessage`) -/

/-- `ws.onmessage` of `Terminal`: a frame that parses as JSON dispatches
one detection event carrying the payload plus a toast whose description
defaults the timestamp to receipt time; a frame that does not parse
dispatches exactly one fallback raw-message detection event. -/
def onMessage (parse : String → Option Json) (now : String)
    (frameData : String) : List Emit :=
  match parse frameData with
  | some data =>
    [Emit.detection data,
     Emit.toast (jsToString (jsOr (getField data "event") (Json.str "WebSocket event")))
       (toastDescription data now)]
  | none =>
    [Emit.detection (Json.obj [("event", Json.str "Raw Message"),
                               ("message", Json.str frameData)])]

/-! ### Playback session state (`VideoFeed`) -/

/-- The `VideoFeed` component state driving one playback session. -/
structure SessionState where
  isPlaying : Bool
  hasError : Bool
  errorDetails : String
  isLoading : Bool
  retryCount : Nat

/-- A JS error as observed by the catch handlers: `name`, `message` and
the optional numeric media-error `code`. -/
structure JsError where
  name : String
  message : String
  code : Option Nat

/-- `getErrorMessage` of `VideoFeed`: maps an error to a human-readable
diagnostic, checked in source order. -/
def getErrorMessage (e : JsError) : String :=
  if e.name = "NotSupportedError" then
    "The video format is not supported by your browser, or the stream might be offline."
  else if e.name = "SecurityError" then
    "Security error: Camera access might be blocked due to CORS. Try enabling CORS on your camera server."
  else if e.name = "NetworkError" ∨ containsL e.message.data "network".data = true then
    "Network error: Unable to connect to the camera stream. Check that the IP address is correct and accessible from your current network."
  else if e.name = "NotAllowedError" then
    "Permission denied: Browser prevented autoplay."
  else if e.code = some 2 then
    "Network error: The camera might be on a different network or behind a firewall."
  else if e.code = some 3 then
    "Decoding error: The video format might not be compatible with your browser."
  else if e.code = some 4 then
    "Format not supported: The camera stream format is not compatible or the URL might be incorrect."
  else if e.message ≠ "" then e.message
  else "Unknown error loading camera feed. Check that the camera is powered on and the URL is correct."

/-- The play-promise catch of the load effect: a `NotAllowedError`
(autoplay policy) stores a hint but explicitly clears `hasError`
("This is a minor issue, not a full error"); any other error sets
`hasError` with the diagnostic. -/
def loadEffectCatch (e : JsError) (st : SessionState) : SessionState :=
  if e.name = "NotAllowedError" then
    { st with isPlaying := false,
              errorDetails := "Browser prevented autoplay. Click play to start the stream.",
              hasError := false }
  else
    { st with isPlaying := false, hasError := true, errorDetails := getErrorMessage e }

/-- The play-promise catch of the classification effect's stream
autoplay: sets `hasError` unconditionally, with no `NotAllowedError`
special case. -/
def streamAutoplayCatch (e : JsError) (st : SessionState) : SessionState :=
  { st with isPlaying := false, hasError := true, errorDetails := getErrorMessage e }

/-- `handleVideoError` of `VideoFeed`: maps the media element's error
code to a diagnostic and enters the error state. -/
def handleVideoError (errorCode : Option Nat) (errorMessage : Option String)
    (st : SessionState) : SessionState :=
  let detailedError :=
    match errorCode with
    | some 1 => "Loading was aborted"
    | some 2 => "Network error: The camera might be on a different network or the URL is incorrect"
    | some 3 => "Video decoding error or unsupported format"
    | some 4 => "Video format not supported or camera stream unavailable. Check if the URL endpoint returns a valid video stream."
    | _ =>
      match errorMessage with
      | some m => if m ≠ "" then m else "Unknown error loading video"
      | none => "Unknown error loading video"
  { st with isLoading := false, hasError := true, errorDetails := detailedError }

/-- `retryLoading` of `VideoFeed`: increments the retry counter and
clears the error state. -/
def retryLoading (st : SessionState) : SessionState :=
  { st with retryCount := st.retryCount + 1, isLoading := true,
            hasError := false, errorDetails := "" }

/-- Commands issued to the media sink. -/
inductive MediaCmd where
  | load
  | play
  | pause
deriving DecidableEq

/-- The dependency key of the load effect: `[feed.id, feed.url,
retryCount]`; the effect re-runs exactly when this tuple changes. -/
def loadEffectKey (feedId url : String) (retryCount : Nat) : String × String × Nat :=
  (feedId, url, retryCount)

/-- The media-sink commands the load effect issues on each run:
`videoRef.current.load()` always, then `play()` when playing or a live
stream, else `pause()`. -/
def loadEffectCmds (isPlaying isLiveStream : Bool) : List MediaCmd :=
  MediaCmd.load :: (if isPlaying || isLiveStream then [MediaCmd.play] else [MediaCmd.pause])

/-! ### Active-feed toggling (`Index.toggleFeed`) -/

/-- The `Index` page state relevant to feed toggling. -/
structure IndexState where
  activeFeeds : List String
  currentFeedIndex : Nat
deriving DecidableEq

/-- `toggleFeed`: deactivating the last active feed or activating beyond
five feeds is rejected (early return, state unchanged); otherwise the
feed is removed or appended and the current feed index resets to 0. -/
def toggleFeed (id : String) (st : IndexState) : IndexState :=
  if st.activeFeeds.contains id then
    if st.activeFeeds.length = 1 then st
    else { activeFeeds := st.activeFeeds.filter (fun f => f != id), currentFeedIndex := 0 }
  else
    if 5 ≤ st.activeFeeds.length then st
    else { activeFeeds := st.activeFeeds ++ [id], currentFeedIndex := 0 }

/-! ### The socket adapter lifecycle (`Terminal` WebSocket effect)

The effect keyed on `wsEndpoint` creates a `WebSocket`, attaches
`onopen/onmessage/onerror/onclose`, and stores it; its cleanup calls
`ws.close()` and nulls the component state, but never clears the
handlers on the socket object.  The browser fires the socket's events
asynchronously on the installed handlers, so a handler of a closed
(or torn-down) attempt still runs if it was never detached.  The model
keeps every attempt closed by a cleanup in `closedAttempts` with its
handler-attachment flag, and handler deliveries are explicit steps. -/

/-- One `new WebSocket(endpoint)` object. -/
structure Attempt where
  endpoint : String
  closeCalled : Bool
  handlersAttached : Bool
deriving DecidableEq

/-- The `Terminal` component's socket-related state plus the reified
model of live/closed socket objects and published effects. -/
structure TerminalWs where
  wsEndpoint : String
  wsConnected : Bool
  socketSet : Bool
  current : Option Attempt
  closedAttempts : List Attempt
  emits : List Emit
  mounted : Bool

/-- Initial component state before the effect first runs. -/
def initTerminal (ep : String) : TerminalWs :=
  { wsEndpoint := ep, wsConnected := false, socketSet := false, current := none,
    closedAttempts := [], emits := [], mounted := true }

/-- The effect cleanup (`if (ws) { ws.close(); setSocket(null);
setWsConnected(false); }`): closes the effect's socket — without
detaching its handlers — and clears component state. -/
def effectCleanup (s : TerminalWs) : TerminalWs :=
  match s.current with
  | some ws =>
    { s with current := none,
             closedAttempts := s.closedAttempts ++ [{ ws with closeCalled := true }],
             socketSet := false, wsConnected := false }
  | none => s

/-- The effect body: `new WebSocket(wsEndpoint)` with all four handlers
attached, then `setSocket(ws)`.  `new WebSocket('')` throws a
`SyntaxError`, caught by the surrounding try, leaving no socket. -/
def effectSetup (s : TerminalWs) : TerminalWs :=
  if s.wsEndpoint = "" then s
  else { s with current := some ⟨s.wsEndpoint, false, true⟩, socketSet := true }

/-- A re-run of the effect after `wsEndpoint` changed: cleanup of the
previous run, then the body with the new endpoint. -/
def rerunEffect (newEndpoint : String) (s : TerminalWs) : TerminalWs :=
  effectSetup { effectCleanup s with wsEndpoint := newEndpoint }

/-- Unmounting the component: the effect cleanup runs one final time. -/
def unmountTerminal (s : TerminalWs) : TerminalWs :=
  { effectCleanup s with mounted := false }

/-- Delivery of the `open` event of attempt `a`: the handler runs iff it
is still attached. -/
def fireOpen (a : Attempt) (s : TerminalWs) : TerminalWs :=
  if a.handlersAttached then
    { s with wsConnected := true,
             emits := s.emits
               ++ [Emit.toast "WebSocket Connected" ("Connected to " ++ a.endpoint)] }
  else s

/-- Delivery of the `close` event of attempt `a` (fires after
`ws.close()` completes): publishes a status toast iff the handler is
still attached. -/
def fireClose (a : Attempt) (s : TerminalWs) : TerminalWs :=
  if a.handlersAttached then
    { s with wsConnected := false,
             emits := s.emits
               ++ [Emit.toast "WebSocket Disconnected" "Connection to WebSocket server closed"] }
  else s

/-- Delivery of the `error` event of attempt `a`. -/
def fireError (a : Attempt) (s : TerminalWs) : TerminalWs :=
  if a.handlersAttached then
    { s with wsConnected := false,
             emits := s.emits
               ++ [Emit.toast "WebSocket Error" "Failed to connect to WebSocket server"] }
  else s

/-- Delivery of a `message` event of attempt `a` carrying `frame`. -/
def fireMessage (parse : String → Option Json) (now : String) (a : Attempt)
    (frame : String) (s : TerminalWs) : TerminalWs :=
  if a.handlersAttached then { s with emits := s.emits ++ onMessage parse now frame }
  else s

/-- `handleConnectToggle`: when `wsConnected && socket`, close directly;
otherwise save the endpoint, set it to `''` (which re-runs the effect
immediately) and schedule a zero-delay timeout restoring it.  The
returned `Option String` is the pending timeout's payload. -/
def handleConnectToggle (s : TerminalWs) : TerminalWs × Option String :=
  if s.wsConnected && s.socketSet then
    (match s.current with
     | some ws =>
       { s with current := none,
                closedAttempts := s.closedAttempts ++ [{ ws with closeCalled := true }],
                socketSet := false, wsConnected := false }
     | none => { s with socketSet := false, wsConnected := false }, none)
  else
    (rerunEffect "" s, some s.wsEndpoint)

/-- The scheduled `setTimeout(() => setWsEndpoint(endpoint), 0)` firing:
the endpoint change re-runs the effect. -/
def fireTimeout (ep : String) (s : TerminalWs) : TerminalWs := rerunEffect ep s

/-! ### Lemmas about the classifier -/

lemma isOctetL_digits {o : List Char} (h : isOctetL o = true) :
    ∀ c ∈ o, isDigitC c = true := by
  simp only [isOctetL, Bool.and_eq_true, List.all_eq_true] at h
  exact h.2

lemma lowerChar_eq_self {c : Char}
    (h : (isDigitC c || c == '.' || c == ':') = true) : lowerChar c = c := by
  simp only [Bool.or_eq_true, beq_iff_eq] at h
  unfold lowerChar
  rcases h with (hd | rfl) | rfl
  · simp only [isDigitC, Bool.and_eq_true, decide_eq_true_eq] at hd
    rw [if_neg]; omega
  · rw [if_neg]; decide
  · rw [if_neg]; decide

lemma toLowerL_eq_self {cs : List Char}
    (h : ∀ c ∈ cs, (isDigitC c || c == '.' || c == ':') = true) :
    toLowerL cs = cs := by
  induction cs with
  | nil => rfl
  | cons c rest ih =>
    simp only [toLowerL, List.map_cons]
    rw [lowerChar_eq_self (h c (List.mem_cons_self c rest))]
    have := ih (fun d hd => h d (List.mem_cons_of_mem c hd))
    simpa [toLowerL] using this

lemma isSuffixOf_eq_false_of_mem {cs ext : List Char} {a : Char}
    (ha : a ∈ ext)
    (hcs : ∀ c ∈ cs, (isDigitC c || c == '.' || c == ':') = true)
    (hbad : (isDigitC a || a == '.' || a == ':') = false) :
    List.isSuffixOf ext cs = false := by
  by_contra h
  have h' : List.isSuffixOf ext cs = true := by
    revert h; cases List.isSuffixOf ext cs <;> simp
  have hsub : ext ⊆ cs := (List.isSuffixOf_iff_suffix.mp h').subset
  have := hcs a (hsub ha)
  rw [hbad] at this
  exact Bool.false_ne_true this

lemma isVideoFileL_eq_false {cs : List Char}
    (h : ∀ c ∈ cs, (isDigitC c || c == '.' || c == ':') = true) :
    isVideoFileL cs = false := by
  have h1 := @isSuffixOf_eq_false_of_mem cs ".mp4".data 'm' (by decide) h (by decide)
  have h2 := @isSuffixOf_eq_false_of_mem cs ".webm".data 'w' (by decide) h (by decide)
  have h3 := @isSuffixOf_eq_false_of_mem cs ".mov".data 'm' (by decide) h (by decide)
  have h4 := @isSuffixOf_eq_false_of_mem cs ".avi".data 'a' (by decide) h (by decide)
  have h5 := @isSuffixOf_eq_false_of_mem cs ".mkv".data 'm' (by decide) h (by decide)
  simp [isVideoFileL, videoExts, h1, h2, h3, h4, h5]

lemma matchDigitsPlus_all {p : List Char} (hne : p ≠ [])
    (hall : p.all isDigitC = true) : matchDigitsPlus p = true := by
  induction p with
  | nil => exact absurd rfl hne
  | cons c rest ih =>
    simp only [List.all_cons, Bool.and_eq_true] at hall
    rcases rest with _ | ⟨d, t⟩
    · simp [matchDigitsPlus, matchPath, hall.1]
    · have hrec := ih (by simp) hall.2
      rw [show matchDigitsPlus (c :: d :: t)
            = (isDigitC c && (matchPath (d :: t) || matchDigitsPlus (d :: t))) from rfl,
          hall.1, hrec]
      simp

lemma matchPortPath_bare {tail : List Char}
    (h : tail = [] ∨ ∃ p : List Char, p ≠ [] ∧ p.all isDigitC = true ∧ tail = ':' :: p) :
    matchPortPath tail = true := by
  rcases h with rfl | ⟨p, hp, hall, rfl⟩
  · simp [matchPortPath, matchPath]
  · have := matchDigitsPlus_all hp hall
    simp [matchPortPath, this]

lemma matchOct_append {k : List Char → Bool} {o rest : List Char}
    (ho : isOctetL o = true) (hk : k rest = true) :
    matchOct k (o ++ rest) = true := by
  simp only [isOctetL, Bool.and_eq_true, decide_eq_true_eq, List.all_eq_true] at ho
  obtain ⟨⟨hne, hlen⟩, hall⟩ := ho
  rcases o with _ | ⟨a, _ | ⟨b, _ | ⟨c, _ | ⟨d, t⟩⟩⟩⟩
  · exact absurd rfl hne
  · have ha := hall a (by simp)
    simp [matchOct, ha, hk]
  · have ha := hall a (by simp)
    have hb := hall b (by simp)
    simp [matchOct, ha, hb, hk]
  · have ha := hall a (by simp)
    have hb := hall b (by simp)
    have hc := hall c (by simp)
    simp [matchOct, ha, hb, hc, hk]
  · simp at hlen

lemma matchDot_cons {k : List Char → Bool} {rest : List Char}
    (hk : k rest = true) : matchDot k ('.' :: rest) = true := by
  simp [matchDot, hk]

lemma ipSearchAux_of_matchIPTail {cs : List Char}
    (h : matchIPTail cs = true) : ipSearchAux none cs = true := by
  cases cs with
  | nil => simp [matchIPTail, matchOct] at h
  | cons c rest => simp [ipSearchAux, nonWordBefore, h]

lemma bareIPv4_chars {s : String} (h : IsBareIPv4 s) :
    ∀ c ∈ s.data, (isDigitC c || c == '.' || c == ':') = true := by
  obtain ⟨o1, o2, o3, o4, tail, h1, h2, h3, h4, ht, hdata⟩ := h
  intro c hc
  rw [hdata] at hc
  simp only [List.mem_append, List.mem_cons] at hc
  have oct : ∀ {o : List Char}, isOctetL o = true → c ∈ o →
      (isDigitC c || c == '.' || c == ':') = true := by
    intro o ho hco
    simp [isOctetL_digits ho c hco]
  rcases hc with hc | rfl | hc | rfl | hc | rfl | hc | hc
  · exact oct h1 hc
  · decide
  · exact oct h2 hc
  · decide
  · exact oct h3 hc
  · decide
  · exact oct h4 hc
  · rcases ht with rfl | ⟨p, _, hall, rfl⟩
    · simp at hc
    · rcases List.mem_cons.mp hc with rfl | hcp
      · decide
      · simp [List.all_eq_true.mp hall c hcp]

lemma classify_bareIPv4 {s : String} (h : IsBareIPv4 s) :
    classify s = SourceKind.LiveStream := by
  have hchars := bareIPv4_chars h
  obtain ⟨o1, o2, o3, o4, tail, h1, h2, h3, h4, ht, hdata⟩ := h
  have hlow : toLowerL s.data = s.data := toLowerL_eq_self hchars
  have hvf : isVideoFileL s.data = false := isVideoFileL_eq_false hchars
  have htail : matchIPTail (o1 ++ '.' :: (o2 ++ '.' :: (o3 ++ '.' :: (o4 ++ tail)))) = true := by
    unfold matchIPTail
    exact matchOct_append h1 (matchDot_cons (matchOct_append h2 (matchDot_cons
      (matchOct_append h3 (matchDot_cons (matchOct_append h4
        (matchPortPath_bare ht)))))))
  have hip : ipMatch s.data = true := by
    rw [hdata]
    exact ipSearchAux_of_matchIPTail htail
  have hstream : isStreamL s.data = true := by
    simp [isStreamL, hip]
  simp [classify, hlow, hvf, hstream]

/-! ### Lemmas about feed toggling -/

lemma length_filter_ne_of_nodup {l : List String} {id : String}
    (hnd : l.Nodup) (hm : id ∈ l) :
    (l.filter (fun f => f != id)).length = l.length - 1 := by
  induction l with
  | nil => cases hm
  | cons a t ih =>
    rcases List.nodup_cons.mp hnd with ⟨hat, hndt⟩
    rcases List.mem_cons.mp hm with rfl | hmt
    · have hkeep : t.filter (fun f => f != id) = t := by
        apply List.filter_eq_self.mpr
        intro x hx
        simp only [bne_iff_ne, ne_eq]
        intro hxa
        exact hat (hxa ▸ hx)
      simp [List.filter_cons, hkeep]
    · have hne : (a != id) = true := by
        simp only [bne_iff_ne, ne_eq]
        intro h
        exact hat (h ▸ hmt)
      have ht := ih hndt hmt
      have hpos : 1 ≤ t.length := List.length_pos.mpr (List.ne_nil_of_mem hmt)
      simp only [List.filter_cons, hne, if_pos, List.length_cons, ht]
      omega

/-! ### Claim C1 and C2 theorems -/

/-- Claim C1: every locator that, compared case-insensitively, ends with a
recognized video extension (`.mp4 .webm .mov .avi .mkv`) classifies as
FileVideo; every bare IPv4 string with optional port classifies as
LiveStream; the empty locator classifies as StaticImage. -/
theorem C1_classify_basics (s : String) :
    (isVideoFileL (toLowerL s.data) = true → classify s = SourceKind.FileVideo)
    ∧ (IsBareIPv4 s → classify s = SourceKind.LiveStream)
    ∧ classify "" = SourceKind.StaticImage := by
  refine ⟨fun h => ?_, classify_bareIPv4, by decide⟩
  simp [classify, h]

/-- Witness for C1 at concrete locators. -/
theorem C1_classify_basics_witness :
    classify "CAM.MP4" = SourceKind.FileVideo
    ∧ classify "192.168.1.10:8080" = SourceKind.LiveStream
    ∧ classify "" = SourceKind.StaticImage :=
  ⟨(C1_classify_basics "CAM.MP4").1 (by decide),
   (C1_classify_basics "192.168.1.10:8080").2.1
     ⟨"192".data, "168".data, "1".data, "10".data, ':' :: "8080".data,
      by decide, by decide, by decide, by decide,
      Or.inr ⟨"8080".data, by decide, by decide, rfl⟩, by decide⟩,
   (C1_classify_basics "").2.2⟩

/-- Claim C2 is false on the code: `http://example.com/cat.jpg` has no
recognized video extension, no `rtsp://` or `rtmp://`, does not contain
`stream` or `video_feed`, and does not match the bare-IP / host:port
pattern, yet `classify` returns LiveStream (the `isStream` check treats
every locator containing `http://` or `https://` as a stream), not
StaticImage as the claim requires. -/
theorem C2_counterexample :
    isVideoFileL (toLowerL "http://example.com/cat.jpg".data) = false
    ∧ containsL (toLowerL "http://example.com/cat.jpg".data) "rtsp://".data = false
    ∧ containsL (toLowerL "http://example.com/cat.jpg".data) "rtmp://".data = false
    ∧ containsL (toLowerL "http://example.com/cat.jpg".data) "stream".data = false
    ∧ containsL (toLowerL "http://example.com/cat.jpg".data) "video_feed".data = false
    ∧ ipMatch (toLowerL "http://example.com/cat.jpg".data) = false
    ∧ classify "http://example.com/cat.jpg" = SourceKind.LiveStream := by
  decide

/-- Claim C2 amended: a locator with no recognized video extension that
also contains none of `rtsp://`, `rtmp://`, `http://`, `https://`,
`stream`, `video_feed` and does not match the bare-IP / host:port pattern
classifies as StaticImage; and a locator containing `http://` (an HTTP
URL) with no video extension always classifies as LiveStream, whether or
not its path or host suggests a stream. -/
theorem C2_amended_static_default (s : String) :
    (isVideoFileL (toLowerL s.data) = false →
     containsL (toLowerL s.data) "rtsp://".data = false →
     containsL (toLowerL s.data) "rtmp://".data = false →
     containsL (toLowerL s.data) "http://".data = false →
     containsL (toLowerL s.data) "https://".data = false →
     containsL (toLowerL s.data) "stream".data = false →
     containsL (toLowerL s.data) "video_feed".data = false →
     ipMatch (toLowerL s.data) = false →
     classify s = SourceKind.StaticImage)
    ∧ ((containsL (toLowerL s.data) "http://".data = true
        ∨ containsL (toLowerL s.data) "https://".data = true) →
       isVideoFileL (toLowerL s.data) = false →
       classify s = SourceKind.LiveStream) := by
  constructor
  · intro h1 h2 h3 h4 h5 h6 h7 h8
    simp [classify, isStreamL, h1, h2, h3, h4, h5, h6, h7, h8]
  · rintro (hh | hh) hv
    · simp [classify, isStreamL, hh, hv]
    · simp [classify, isStreamL, hh, hv]

/-- Witness for the amended C2 at concrete locators, covering both an
`http://` and an `https://` URL. -/
theorem C2_amended_static_default_witness :
    classify "cat.jpg" = SourceKind.StaticImage
    ∧ classify "http://cam.local/mjpg.cgi" = SourceKind.LiveStream
    ∧ classify "https://example.com/cat.jpg" = SourceKind.LiveStream :=
  ⟨(C2_amended_static_default "cat.jpg").1 (by decide) (by decide) (by decide)
     (by decide) (by decide) (by decide) (by decide) (by decide),
   (C2_amended_static_default "http://cam.local/mjpg.cgi").2
     (Or.inl (by decide)) (by decide),
   (C2_amended_static_default "https://example.com/cat.jpg").2
     (Or.inr (by decide)) (by decide)⟩

/-! ### Claim C3, C6 and C7 theorems -/

/-- Claim C3 is false on the code: a POST to the configured path whose
string body does not parse as JSON is logged (`console.error`) and emits
no detection event, but the adapter does NOT return a synthesized
successful response — after the catch the function falls through to
`originalFetch`, so the request reaches the real network layer. -/
theorem C3_counterexample :
    pathnameOf (resolvedUrl "http://localhost:3000" "/detection_output")
      = pathnameOf ("http://localhost:3000" ++ "/detection_output")
    ∧ (fun s => if s = "valid" then some (Json.obj []) else none) "not json" = none
    ∧ fetchOverride "/detection_output" "http://localhost:3000"
        (fun s => if s = "valid" then some (Json.obj []) else none)
        "12:00:00" "/detection_output" "POST" (BodyVal.str "not json")
      = FetchResult.passthrough [Emit.errorLog "Error processing detection data"]
    ∧ isSynthesized (fetchOverride "/detection_output" "http://localhost:3000"
        (fun s => if s = "valid" then some (Json.obj []) else none)
        "12:00:00" "/detection_output" "POST" (BodyVal.str "not json")) = false
    ∧ detectionsOf (emitsOf (fetchOverride "/detection_output" "http://localhost:3000"
        (fun s => if s = "valid" then some (Json.obj []) else none)
        "12:00:00" "/detection_output" "POST" (BodyVal.str "not json"))) = [] :=
  ⟨rfl, rfl, rfl, rfl, rfl⟩

/-- Claim C3 amended: a matching POST whose string body fails to parse is
logged and swallowed without emitting a detection event, and the request
is forwarded unmodified to the original network layer — the caller
receives the real network response, not a synthesized one. -/
theorem C3_amended_passthrough (apiEndpoint origin : String)
    (parse : String → Option Json) (now url s : String)
    (hpath : pathnameOf (resolvedUrl origin url) = pathnameOf (origin ++ apiEndpoint))
    (hparse : parse s = none) :
    fetchOverride apiEndpoint origin parse now url "POST" (BodyVal.str s)
      = FetchResult.passthrough [Emit.errorLog "Error processing detection data"]
    ∧ isSynthesized (fetchOverride apiEndpoint origin parse now url "POST"
        (BodyVal.str s)) = false
    ∧ detectionsOf (emitsOf (fetchOverride apiEndpoint origin parse now url "POST"
        (BodyVal.str s))) = [] := by
  have h : fetchOverride apiEndpoint origin parse now url "POST" (BodyVal.str s)
      = FetchResult.passthrough [Emit.errorLog "Error processing detection data"] := by
    simp [fetchOverride, hpath, hparse]
  refine ⟨h, by rw [h]; rfl, by rw [h]; rfl⟩

/-- Witness for the amended C3 at a concrete request. -/
theorem C3_amended_passthrough_witness :
    fetchOverride "/detection_output" "http://localhost:3000"
        (fun s => if s = "valid" then some (Json.obj []) else none)
        "12:00:00" "/detection_output" "POST" (BodyVal.str "nonsense")
      = FetchResult.passthrough [Emit.errorLog "Error processing detection data"]
    ∧ isSynthesized (fetchOverride "/detection_output" "http://localhost:3000"
        (fun s => if s = "valid" then some (Json.obj []) else none)
        "12:00:00" "/detection_output" "POST" (BodyVal.str "nonsense")) = false
    ∧ detectionsOf (emitsOf (fetchOverride "/detection_output" "http://localhost:3000"
        (fun s => if s = "valid" then some (Json.obj []) else none)
        "12:00:00" "/detection_output" "POST" (BodyVal.str "nonsense"))) = [] :=
  C3_amended_passthrough "/detection_output" "http://localhost:3000"
    (fun s => if s = "valid" then some (Json.obj []) else none)
    "12:00:00" "/detection_output" "nonsense" rfl rfl

/-- Claim C6 is false on the code as an if-and-only-if: a POST whose URL
path equals the configured path but whose body is not a string is NOT
intercepted — it is forwarded to the original network layer after an
error log, although path and method match. -/
theorem C6_counterexample :
    pathnameOf (resolvedUrl "http://localhost:3000" "/detection_output")
      = pathnameOf ("http://localhost:3000" ++ "/detection_output")
    ∧ fetchOverride "/detection_output" "http://localhost:3000" (fun _ => none)
        "12:00:00" "/detection_output" "POST" BodyVal.nonString
      = FetchResult.passthrough [Emit.errorLog "Request body is not a string"] :=
  ⟨rfl, rfl⟩

/-- Claim C6 amended: a request is answered with a synthesized response
(intercepted, never reaching the network) iff its resolved URL's path
component equals the configured endpoint's path (scheme and host
ignored), its method is POST, AND its body is a string that parses as
JSON; every request failing the path-or-method test passes through
unmodified with no emissions. -/
theorem C6_amended_intercept_iff (apiEndpoint origin : String)
    (parse : String → Option Json) (now url method : String) (body : BodyVal) :
    ((∃ st rb em, fetchOverride apiEndpoint origin parse now url method body
        = FetchResult.synthesized st rb em)
      ↔ (pathnameOf (resolvedUrl origin url) = pathnameOf (origin ++ apiEndpoint)
         ∧ method = "POST"
         ∧ ∃ s d, body = BodyVal.str s ∧ parse s = some d))
    ∧ (¬ (pathnameOf (resolvedUrl origin url) = pathnameOf (origin ++ apiEndpoint)
          ∧ method = "POST") →
       fetchOverride apiEndpoint origin parse now url method body
         = FetchResult.passthrough []) := by
  by_cases hc : pathnameOf (resolvedUrl origin url) = pathnameOf (origin ++ apiEndpoint)
      ∧ method = "POST"
  · refine ⟨⟨?_, ?_⟩, fun hn => absurd hc hn⟩
    · rintro ⟨st, rb, em, heq⟩
      refine ⟨hc.1, hc.2, ?_⟩
      rcases body with s | _
      · rcases hp : parse s with _ | d
        · rw [show fetchOverride apiEndpoint origin parse now url method (BodyVal.str s)
                = FetchResult.passthrough [Emit.errorLog "Error processing detection data"] by
              simp [fetchOverride, hc, hp]] at heq
          exact absurd heq (by simp)
        · exact ⟨s, d, rfl, hp⟩
      · rw [show fetchOverride apiEndpoint origin parse now url method BodyVal.nonString
              = FetchResult.passthrough [Emit.errorLog "Request body is not a string"] by
            simp [fetchOverride, hc]] at heq
        exact absurd heq (by simp)
    · rintro ⟨_, _, s, d, rfl, hp⟩
      exact ⟨200, "\x7B\x22success\x22:true\x7D",
        [Emit.detection d,
         Emit.toast (jsToString (jsOr (getField d "event") (Json.str "Detection event")))
           (toastDescription d now)],
        by simp [fetchOverride, hc, hp]⟩
  · refine ⟨⟨?_, ?_⟩, fun _ => by simp [fetchOverride, hc]⟩
    · rintro ⟨st, rb, em, heq⟩
      rw [show fetchOverride apiEndpoint origin parse now url method body
            = FetchResult.passthrough [] by simp [fetchOverride, hc]] at heq
      exact absurd heq (by simp)
    · rintro ⟨h1, h2, _⟩
      exact absurd ⟨h1, h2⟩ hc

/-- Witness for the amended C6: a parseable matching POST is synthesized;
a POST to a different path passes through untouched. -/
theorem C6_amended_intercept_iff_witness :
    (∃ st rb em, fetchOverride "/detection_output" "http://localhost:3000"
        (fun s => if s = "ok" then some (Json.str "x") else none)
        "12:00:00" "/detection_output" "POST" (BodyVal.str "ok")
        = FetchResult.synthesized st rb em)
    ∧ fetchOverride "/detection_output" "http://localhost:3000"
        (fun s => if s = "ok" then some (Json.str "x") else none)
        "12:00:00" "/other_path" "POST" (BodyVal.str "ok")
      = FetchResult.passthrough [] :=
  ⟨(C6_amended_intercept_iff "/detection_output" "http://localhost:3000"
      (fun s => if s = "ok" then some (Json.str "x") else none)
      "12:00:00" "/detection_output" "POST" (BodyVal.str "ok")).1.mpr
      ⟨rfl, rfl, "ok", Json.str "x", rfl, rfl⟩,
   (C6_amended_intercept_iff "/detection_output" "http://localhost:3000"
      (fun s => if s = "ok" then some (Json.str "x") else none)
      "12:00:00" "/other_path" "POST" (BodyVal.str "ok")).2 (by decide)⟩

/-- Claim C7: a frame that parses as JSON yields exactly one detection
event carrying the parsed payload, and when the payload has no
`timestamp` field the toast description defaults it to the receipt time;
a frame that does not parse yields exactly one fallback raw-message
event, not zero. -/
theorem C7_onmessage_events (parse : String → Option Json) (now frame : String) :
    (∀ d, parse frame = some d →
      detectionsOf (onMessage parse now frame) = [d]
      ∧ (getField d "timestamp" = none →
         onMessage parse now frame
           = [Emit.detection d,
              Emit.toast
                (jsToString (jsOr (getField d "event") (Json.str "WebSocket event")))
                ("Feed ID: "
                  ++ jsToString (jsOr (getField d "feedId") (Json.str "Unknown"))
                  ++ " - " ++ now)]))
    ∧ (parse frame = none →
       onMessage parse now frame
         = [Emit.detection (Json.obj [("event", Json.str "Raw Message"),
                                      ("message", Json.str frame)])]) := by
  constructor
  · intro d hd
    constructor
    · simp [onMessage, hd, detectionsOf]
    · intro hts
      simp [onMessage, hd, toastDescription, hts, jsOr, jsToString]
  · intro hn
    simp [onMessage, hn]

/-- Witness for C7: the spec's example frame yields one detection event;
a non-JSON frame yields one raw-message event. -/
theorem C7_onmessage_events_witness :
    detectionsOf (onMessage
        (fun s => if s = "fA"
          then some (Json.obj [("event", Json.str "Vehicle detected"),
                               ("feedId", Json.str "2")])
          else none) "14:35:22" "fA")
      = [Json.obj [("event", Json.str "Vehicle detected"), ("feedId", Json.str "2")]]
    ∧ onMessage
        (fun s => if s = "fA"
          then some (Json.obj [("event", Json.str "Vehicle detected"),
                               ("feedId", Json.str "2")])
          else none) "14:35:22" "not-json"
      = [Emit.detection (Json.obj [("event", Json.str "Raw Message"),
                                   ("message", Json.str "not-json")])] :=
  ⟨((C7_onmessage_events
      (fun s => if s = "fA"
        then some (Json.obj [("event", Json.str "Vehicle detected"),
                             ("feedId", Json.str "2")])
        else none) "14:35:22" "fA").1
      (Json.obj [("event", Json.str "Vehicle detected"), ("feedId", Json.str "2")]) rfl).1,
   (C7_onmessage_events
      (fun s => if s = "fA"
        then some (Json.obj [("event", Json.str "Vehicle detected"),
                             ("feedId", Json.str "2")])
        else none) "14:35:22" "not-json").2 rfl⟩

/-! ### Claim C4, C9 and C10 theorems -/

/-- Claim C4 fails in the code: the stream-autoplay catch of the
classification effect sets `hasError` even for a `NotAllowedError`
(autoplay-policy) rejection, while the load effect's catch in the same
file documents and implements the opposite ("This is a minor issue, not
a full error"); explicit decode failures do set the error state with a
non-empty diagnostic as claimed. -/
theorem C4_autoplay_error_eval :
    (streamAutoplayCatch ⟨"NotAllowedError", "autoplay blocked", none⟩
        ⟨false, false, "", true, 0⟩).hasError = true
    ∧ (streamAutoplayCatch ⟨"NotAllowedError", "autoplay blocked", none⟩
        ⟨false, false, "", true, 0⟩).errorDetails
      = "Permission denied: Browser prevented autoplay."
    ∧ (loadEffectCatch ⟨"NotAllowedError", "autoplay blocked", none⟩
        ⟨false, false, "", true, 0⟩).hasError = false
    ∧ (handleVideoError (some 3) none ⟨false, false, "", true, 0⟩).hasError = true
    ∧ (handleVideoError (some 3) none ⟨false, false, "", true, 0⟩).errorDetails
      = "Video decoding error or unsupported format" :=
  ⟨rfl, rfl, rfl, rfl, rfl⟩

/-- Claim C9: a user-triggered retry on an errored session increments
`retryCount` by exactly one, clears the error state, and — because the
load effect is keyed on `[feed.id, feed.url, retryCount]` — changes the
effect key even for an unchanged locator, re-running an effect whose
first media-sink command is always `load()`. -/
theorem C9_retry_forces_reload (st : SessionState) (feedId url : String)
    (p l : Bool) (_herr : st.hasError = true) :
    (retryLoading st).retryCount = st.retryCount + 1
    ∧ (retryLoading st).hasError = false
    ∧ (retryLoading st).errorDetails = ""
    ∧ (retryLoading st).isLoading = true
    ∧ loadEffectKey feedId url (retryLoading st).retryCount
        ≠ loadEffectKey feedId url st.retryCount
    ∧ (loadEffectCmds p l).head? = some MediaCmd.load := by
  refine ⟨rfl, rfl, rfl, rfl, ?_, ?_⟩
  · simp [loadEffectKey, retryLoading]
  · cases p <;> cases l <;> rfl

/-- Witness for C9 at a concrete errored session. -/
theorem C9_retry_forces_reload_witness :
    (retryLoading ⟨false, true, "Network error", false, 2⟩).retryCount
      = (⟨false, true, "Network error", false, 2⟩ : SessionState).retryCount + 1
    ∧ (retryLoading ⟨false, true, "Network error", false, 2⟩).hasError = false
    ∧ (retryLoading ⟨false, true, "Network error", false, 2⟩).errorDetails = ""
    ∧ (retryLoading ⟨false, true, "Network error", false, 2⟩).isLoading = true
    ∧ loadEffectKey "1" "/placeholder.svg"
        (retryLoading ⟨false, true, "Network error", false, 2⟩).retryCount
      ≠ loadEffectKey "1" "/placeholder.svg"
        (⟨false, true, "Network error", false, 2⟩ : SessionState).retryCount
    ∧ (loadEffectCmds false false).head? = some MediaCmd.load :=
  C9_retry_forces_reload ⟨false, true, "Network error", false, 2⟩
    "1" "/placeholder.svg" false false rfl

/-- Claim C10: starting from a state satisfying the active-feed
invariant, `toggleFeed` preserves `1 ≤ |activeFeeds| ≤ 5`; deactivating
the last feed or activating a sixth is rejected unchanged; every
accepted toggle resets the current feed index to 0. -/
theorem C10_toggleFeed_invariant (id : String) (st : IndexState)
    (hnd : st.activeFeeds.Nodup) (h1 : 1 ≤ st.activeFeeds.length)
    (h5 : st.activeFeeds.length ≤ 5) :
    (1 ≤ (toggleFeed id st).activeFeeds.length
      ∧ (toggleFeed id st).activeFeeds.length ≤ 5)
    ∧ (id ∈ st.activeFeeds → st.activeFeeds.length = 1 →
        toggleFeed id st = st)
    ∧ (id ∉ st.activeFeeds → st.activeFeeds.length = 5 →
        toggleFeed id st = st)
    ∧ ((id ∈ st.activeFeeds ∧ st.activeFeeds.length ≠ 1)
        ∨ (id ∉ st.activeFeeds ∧ st.activeFeeds.length < 5) →
        (toggleFeed id st).currentFeedIndex = 0) := by
  by_cases hmem : id ∈ st.activeFeeds
  · by_cases hlen : st.activeFeeds.length = 1
    · have ht : toggleFeed id st = st := by simp [toggleFeed, hmem, hlen]
      refine ⟨⟨by rw [ht]; exact h1, by rw [ht]; exact h5⟩, fun _ _ => ht,
        fun hn _ => absurd hmem hn, ?_⟩
      rintro (⟨_, hne⟩ | ⟨hn, _⟩)
      · exact absurd hlen hne
      · exact absurd hmem hn
    · have hfil : (st.activeFeeds.filter (fun f => f != id)).length
          = st.activeFeeds.length - 1 := length_filter_ne_of_nodup hnd hmem
      have ht : toggleFeed id st
          = ⟨st.activeFeeds.filter (fun f => f != id), 0⟩ := by
        simp [toggleFeed, hmem, hlen]
      refine ⟨⟨?_, ?_⟩, fun _ hl => absurd hl hlen, fun hn _ => absurd hmem hn,
        fun _ => by rw [ht]⟩
      · rw [ht]
        show 1 ≤ (st.activeFeeds.filter (fun f => f != id)).length
        rw [hfil]
        omega
      · rw [ht]
        show (st.activeFeeds.filter (fun f => f != id)).length ≤ 5
        rw [hfil]
        omega
  · by_cases hge : 5 ≤ st.activeFeeds.length
    · have ht : toggleFeed id st = st := by simp [toggleFeed, hmem, hge]
      refine ⟨⟨by rw [ht]; exact h1, by rw [ht]; exact h5⟩,
        fun hm _ => absurd hm hmem, fun _ _ => ht, ?_⟩
      rintro (⟨hm, _⟩ | ⟨_, hlt⟩)
      · exact absurd hm hmem
      · omega
    · have ht : toggleFeed id st = ⟨st.activeFeeds ++ [id], 0⟩ := by
        simp [toggleFeed, hmem, hge]
      refine ⟨⟨?_, ?_⟩, fun hm _ => absurd hm hmem,
        fun _ hl => absurd hl (by omega), fun _ => by rw [ht]⟩
      · rw [ht]
        show 1 ≤ (st.activeFeeds ++ [id]).length
        simp only [List.length_append, List.length_cons, List.length_nil]
        omega
      · rw [ht]
        show (st.activeFeeds ++ [id]).length ≤ 5
        simp only [List.length_append, List.length_cons, List.length_nil]
        omega

/-- Witness for C10 at a concrete two-feed state. -/
theorem C10_toggleFeed_invariant_witness :
    (1 ≤ (toggleFeed "2" ⟨["1", "2"], 3⟩).activeFeeds.length
      ∧ (toggleFeed "2" ⟨["1", "2"], 3⟩).activeFeeds.length ≤ 5)
    ∧ ("2" ∈ (IndexState.mk ["1", "2"] 3).activeFeeds →
        (IndexState.mk ["1", "2"] 3).activeFeeds.length = 1 →
        toggleFeed "2" ⟨["1", "2"], 3⟩ = ⟨["1", "2"], 3⟩)
    ∧ ("2" ∉ (IndexState.mk ["1", "2"] 3).activeFeeds →
        (IndexState.mk ["1", "2"] 3).activeFeeds.length = 5 →
        toggleFeed "2" ⟨["1", "2"], 3⟩ = ⟨["1", "2"], 3⟩)
    ∧ (("2" ∈ (IndexState.mk ["1", "2"] 3).activeFeeds
          ∧ (IndexState.mk ["1", "2"] 3).activeFeeds.length ≠ 1)
        ∨ ("2" ∉ (IndexState.mk ["1", "2"] 3).activeFeeds
          ∧ (IndexState.mk ["1", "2"] 3).activeFeeds.length < 5) →
        (toggleFeed "2" ⟨["1", "2"], 3⟩).currentFeedIndex = 0) :=
  C10_toggleFeed_invariant "2" ⟨["1", "2"], 3⟩ (by decide) (by decide) (by decide)

/-! ### Claim C5 and C8 theorems -/

/-- Claim C5 fails in the code: the effect cleanup closes the socket but
never detaches its handlers, so after unmounting while connected the
closed attempt's `onclose` handler still runs and publishes a
"WebSocket Disconnected" status toast into the destroyed component. -/
theorem C5_stray_close_after_unmount :
    (unmountTerminal (fireOpen ⟨"ws://localhost:8080/ws", false, true⟩
        (effectSetup (initTerminal "ws://localhost:8080/ws")))).mounted = false
    ∧ (unmountTerminal (fireOpen ⟨"ws://localhost:8080/ws", false, true⟩
        (effectSetup (initTerminal "ws://localhost:8080/ws")))).closedAttempts
      = [⟨"ws://localhost:8080/ws", true, true⟩]
    ∧ (⟨"ws://localhost:8080/ws", true, true⟩ : Attempt).handlersAttached = true
    ∧ (fireClose ⟨"ws://localhost:8080/ws", true, true⟩
        (unmountTerminal (fireOpen ⟨"ws://localhost:8080/ws", false, true⟩
          (effectSetup (initTerminal "ws://localhost:8080/ws"))))).emits
      = (unmountTerminal (fireOpen ⟨"ws://localhost:8080/ws", false, true⟩
          (effectSetup (initTerminal "ws://localhost:8080/ws")))).emits
        ++ [Emit.toast "WebSocket Disconnected" "Connection to WebSocket server closed"] :=
  ⟨rfl, rfl, rfl, rfl⟩

/-- Claim C8 fails in the code: toggling while Connecting (when
`wsConnected` is still false) takes the reconnect branch, which closes
the in-flight attempt via the effect re-run but then — after the
zero-delay timeout restores the endpoint — initiates a fresh attempt to
the same endpoint; and the aborted attempt's still-attached `onclose`
handler delivers a Disconnected status toast afterward. -/
theorem C8_counterexample :
    (effectSetup (initTerminal "ws://localhost:8080/ws")).wsConnected = false
    ∧ (handleConnectToggle (effectSetup (initTerminal "ws://localhost:8080/ws"))).2
      = some "ws://localhost:8080/ws"
    ∧ ((handleConnectToggle (effectSetup (initTerminal "ws://localhost:8080/ws"))).1).closedAttempts
      = [⟨"ws://localhost:8080/ws", true, true⟩]
    ∧ (fireTimeout "ws://localhost:8080/ws"
        (handleConnectToggle (effectSetup (initTerminal "ws://localhost:8080/ws"))).1).current
      = some ⟨"ws://localhost:8080/ws", false, true⟩
    ∧ (fireClose ⟨"ws://localhost:8080/ws", true, true⟩
        (fireTimeout "ws://localhost:8080/ws"
          (handleConnectToggle (effectSetup (initTerminal "ws://localhost:8080/ws"))).1)).emits
      = (fireTimeout "ws://localhost:8080/ws"
          (handleConnectToggle (effectSetup (initTerminal "ws://localhost:8080/ws"))).1).emits
        ++ [Emit.toast "WebSocket Disconnected" "Connection to WebSocket server closed"] :=
  ⟨rfl, rfl, rfl, rfl, rfl⟩

/-- Claim C8 amended: toggling while Connecting does not take the close
branch; it clears the endpoint (the effect re-run closes the in-flight
attempt) and schedules a timeout restoring it, after which a fresh
attempt to the same endpoint is initiated — the in-flight attempt is
aborted but reconnection is deliberately re-initiated; the aborted
attempt keeps its handlers attached, so its close notification can still
be delivered; the model's single `current` slot keeps at most one
attempt active at a time. -/
theorem C8_amended_toggle_reconnects (E : String) (a : Attempt) (s : TerminalWs)
    (hE : E ≠ "") (hconn : s.wsConnected = false) (hcur : s.current = some a)
    (hep : s.wsEndpoint = E) :
    (handleConnectToggle s).2 = some E
    ∧ (handleConnectToggle s).1.current = none
    ∧ (handleConnectToggle s).1.closedAttempts
      = s.closedAttempts ++ [{ a with closeCalled := true }]
    ∧ ({ a with closeCalled := true } : Attempt).handlersAttached = a.handlersAttached
    ∧ (fireTimeout E (handleConnectToggle s).1).current = some ⟨E, false, true⟩ := by
  have htog : handleConnectToggle s = (rerunEffect "" s, some s.wsEndpoint) := by
    simp [handleConnectToggle, hconn]
  have hclean : effectCleanup s
      = { s with current := none,
                 closedAttempts := s.closedAttempts ++ [{ a with closeCalled := true }],
                 socketSet := false, wsConnected := false } := by
    simp [effectCleanup, hcur]
  have hrerun : rerunEffect "" s
      = { s with current := none,
                 closedAttempts := s.closedAttempts ++ [{ a with closeCalled := true }],
                 socketSet := false, wsConnected := false, wsEndpoint := "" } := by
    simp [rerunEffect, hclean, effectSetup]
  refine ⟨by rw [htog, hep], by rw [htog, hrerun], by rw [htog, hrerun], rfl, ?_⟩
  rw [htog]
  simp only [fireTimeout, rerunEffect, hrerun, effectCleanup, effectSetup]
  simp [hE]

/-- Witness for the amended C8 at a concrete Connecting state. -/
theorem C8_amended_toggle_reconnects_witness :
    (handleConnectToggle (effectSetup (initTerminal "ws://h:1/ws"))).2 = some "ws://h:1/ws"
    ∧ (handleConnectToggle (effectSetup (initTerminal "ws://h:1/ws"))).1.current = none
    ∧ (handleConnectToggle (effectSetup (initTerminal "ws://h:1/ws"))).1.closedAttempts
      = (effectSetup (initTerminal "ws://h:1/ws")).closedAttempts
        ++ [{ (⟨"ws://h:1/ws", false, true⟩ : Attempt) with closeCalled := true }]
    ∧ ({ (⟨"ws://h:1/ws", false, true⟩ : Attempt) with closeCalled := true } : Attempt).handlersAttached
      = (⟨"ws://h:1/ws", false, true⟩ : Attempt).handlersAttached
    ∧ (fireTimeout "ws://h:1/ws"
        (handleConnectToggle (effectSetup (initTerminal "ws://h:1/ws"))).1).current
      = some ⟨"ws://h:1/ws", false, true⟩ :=
  C8_amended_toggle_reconnects "ws://h:1/ws" ⟨"ws://h:1/ws", false, true⟩
    (effectSetup (initTerminal "ws://h:1/ws")) (by decide) rfl rfl rfl

end VSSS
